import Mathlib

/-!
Verification of the marvin Maps tool and its versioned datamodel registry.

The Python sources embedded here are `marvin/tools/maps.py` and
`marvin/marvin/jinja_filters.py`, together with the behaviour documented by
`marvin/tests/utils/test_dap_pytest.py`.  The name-resolution engine itself
(`marvin.utils.dap.datamodel`) is not part of the inspected sources, so those
operations are modelled from the specification (marked `Modelled from the
spec:` below) and validated against the in-repository test assertions.
-/

deriving instance DecidableEq for Except

namespace Marvin

/-- Lower-casing of a string, written over the character list so that it
evaluates inside the kernel. -/
def strLower (s : String) : String :=
  ⟨s.data.map Char.toLower⟩

/-- Case-insensitive string comparison, the comparison used by the datamodel
matching rules (`'EMLINE_GFLUX' in datamodel` succeeds in the tests although
the catalog stores lower-case names). -/
def ieq (a b : String) : Bool :=
  strLower a == strLower b

/-- Modelled from the spec: a Channel is an immutable named sub-index of a
Property, with an optional unit override (spec section 3). -/
structure Channel where
  name : String
  unit : Option String
deriving DecidableEq, Repr

/-- Modelled from the spec: a Property is an immutable named quantity with a
possibly-empty ordered list of channels, a unit, a description and
availability flags (spec section 3). -/
structure Property where
  name : String
  channels : List Channel
  unit : Option String
  description : String
  has_ivar : Bool
  has_mask : Bool
deriving DecidableEq, Repr

/-- Full name of a property under one of its channels:
`name + "_" + channel.name` (spec section 3). -/
def Property.fullName (p : Property) (c : Channel) : String :=
  p.name ++ "_" ++ c.name

/-- Modelled from the spec: a PropertyList is the ordered, name-unique
collection of Properties of one dap version (spec section 3). -/
structure PropertyList where
  version : String
  properties : List Property
deriving DecidableEq, Repr

/-- The addressable entries of a PropertyList: a channel-less property is
addressed by its bare name, a property with channels by each of its full
names (spec section 3). -/
def PropertyList.entries (pl : PropertyList) : List (Property × Option Channel) :=
  pl.properties.flatMap fun p =>
    if p.channels.isEmpty then [(p, none)]
    else p.channels.map fun c => (p, some c)

/-- The full name reconstructed from a resolved match: the bare property name
when the match carries no channel, `name_channel` otherwise.  This is what
`Property.full()` returns on the matched value in `Maps._match_properties`. -/
def pairFull : Property × Option Channel → String
  | (p, none) => p.name
  | (p, some c) => p.fullName c

/-- Failures of the resolution engine (spec section 7). -/
inductive ResolveError
  | propertyNotFound
  | ambiguousMatch (candidates : List String)
deriving DecidableEq, Repr

/-- Modelled from the spec: step 2 of the resolution algorithm, the exact
matches of an input string, namely the entries whose address equals the
input (spec section 4.2 step 2). -/
def PropertyList.exactMatches (pl : PropertyList) (input : String) :
    List (Property × Option Channel) :=
  pl.entries.filter fun m => pairFull m == input

/-- Modelled from the spec: step 3 of the resolution algorithm, the fuzzy
candidates of an input string: the property name must be the longest prefix of
the input whose remainder matches (case-insensitively) one of that property's
channel names, which amounts to a case-insensitive full-name match
(spec section 4.2 step 3). -/
def PropertyList.fuzzyMatches (pl : PropertyList) (input : String) :
    List (Property × Option Channel) :=
  pl.entries.filter fun m => m.2.isSome && ieq (pairFull m) input

/-- Modelled from the spec: step 4 of the resolution algorithm, the
re-verification done when `exact=True`: the full name reconstructed from the
match must reproduce the input, case-insensitively (spec section 4.2 step 4). -/
def resolveCheckExact (exact : Bool) (input : String) (m : Property × Option Channel) :
    Except ResolveError (Property × Option Channel) :=
  if exact && !(ieq (pairFull m) input) then .error .propertyNotFound else .ok m

/-- Modelled from the spec: the resolution engine of section 4.2.  A separately
supplied channel is concatenated to the name (step 1); exact matches are
preferred (step 2); otherwise a unique fuzzy candidate is returned, several
candidates are an ambiguity, none is a not-found failure (step 3); with
`exact=True` the reconstruction re-check runs on the match (step 4). -/
def PropertyList.resolve (pl : PropertyList) (name : String) (channel : Option String)
    (exact : Bool) : Except ResolveError (Property × Option Channel) :=
  let input := match channel with
    | some ch => name ++ "_" ++ ch
    | none => name
  match pl.exactMatches input with
  | m :: _ => resolveCheckExact exact input m
  | [] =>
    match pl.fuzzyMatches input with
    | [] => .error .propertyNotFound
    | [m] => resolveCheckExact exact input m
    | ms => .error (.ambiguousMatch (ms.map pairFull))

/-- Modelled from the spec: `get(name)` is the non-throwing counterpart of
resolution; every failure mode, ambiguity included, becomes an absence value
(spec sections 4.2 and 7). -/
def PropertyList.get (pl : PropertyList) (name : String) :
    Option (Property × Option Channel) :=
  (pl.resolve name none false).toOption

/-- Modelled from the spec: membership as the claim states it, namely the same
matching rule as resolution, returning a boolean instead of failing
(spec section 4.2).  Kept for comparison against the behaviour the
repository's own test mandates. -/
def PropertyList.memSpecRule (pl : PropertyList) (name : String) : Bool :=
  (pl.resolve name none false).toOption.isSome

/-- Modelled from the spec: the actual membership test of the datamodel.  The
in-repository test requires `'EMLINE_GFLUX' in datamodel` to hold for the
v2.0.2 catalog in which `emline_gflux` has channels, so membership matches the
bare property name alone, case-insensitively. -/
def PropertyList.memActual (pl : PropertyList) (name : String) : Bool :=
  pl.properties.any fun p => ieq p.name name

/-- Sample channel of the v2.0.2 catalog, as used in the repository's tests. -/
def oii_3727 : Channel := ⟨"oii_3727", some "1E-17 erg/s/cm^2/spaxel"⟩

/-- Sample channel of the v2.0.2 catalog, as used in the Maps docstrings. -/
def ha_6564 : Channel := ⟨"ha_6564", some "1E-17 erg/s/cm^2/spaxel"⟩

/-- Sample multi-channel property of the v2.0.2 catalog (used by the tests:
it is addressed through its channels, never by its bare name). -/
def emline_gflux_prop : Property :=
  ⟨"emline_gflux", [oii_3727, ha_6564], some "1E-17 erg/s/cm^2/spaxel",
   "Gaussian profile integrated flux", true, true⟩

/-- Sample multi-channel property of the v2.0.2 catalog. -/
def emline_gvel_prop : Property :=
  ⟨"emline_gvel", [oii_3727, ha_6564], some "km/s",
   "Gaussian profile velocity", true, true⟩

/-- Sample channel-less property of the v2.0.2 catalog, addressed by its bare
name. -/
def stellar_vel_prop : Property :=
  ⟨"stellar_vel", [], some "km/s", "Stellar velocity", true, true⟩

/-- Modelled from the spec: a representative slice of the v2.0.2 (MPL-5)
property catalog, with the entries the repository's tests exercise. -/
def mpl5dm : PropertyList :=
  ⟨"2.0.2", [emline_gflux_prop, emline_gvel_prop, stellar_vel_prop]⟩

/-- An argument that may be a `Channel` object or a plain string, as accepted
by the `channel` parameter of `Maps._match_properties`. -/
inductive ChannelArg
  | chan (c : Channel)
  | str (s : String)
deriving DecidableEq, Repr

/-- The channel name extracted from the argument:
`channel.name if isinstance(channel, Channel) else channel` in
`Maps._match_properties`. -/
def ChannelArg.toName : ChannelArg → String
  | .chan c => c.name
  | .str s => s

/-- The input string `Maps._match_properties` builds before the datamodel
lookup: a separately supplied channel is appended as
`property_name + "_" + channel`. -/
def matchInputName (property_name : String) (channel : Option ChannelArg) : String :=
  match channel with
  | some ch => property_name ++ "_" ++ ch.toName
  | none => property_name

/-- Failures of `Maps._match_properties`: a failed datamodel lookup, or the
assertion raised when `exact=True` and the reconstructed full name differs
from the input. -/
inductive MatchPropertiesError
  | lookupFailed (e : ResolveError)
  | assertExactMismatch (full input : String)
deriving DecidableEq, Repr

/-- Embedding of `Maps._match_properties` (maps.py lines 514-530): the channel
argument is reduced to its name and concatenated to the property name, the
datamodel is queried with the result, and with `exact=True` the assertion
`best.full() == property_name` (plain, case-sensitive string equality) is
checked on the returned match. -/
def match_properties (pl : PropertyList) (property_name : String)
    (channel : Option ChannelArg) (exact : Bool) :
    Except MatchPropertiesError (Property × Option Channel) :=
  let pname := matchInputName property_name channel
  match pl.resolve pname none false with
  | .error e => .error (.lookupFailed e)
  | .ok best =>
    if exact then
      if pairFull best == pname then .ok best
      else .error (.assertExactMismatch (pairFull best) pname)
    else .ok best

/-- Splits a character list at every occurrence of the given character
(kernel-evaluable counterpart of Python's `str.split`). -/
def splitOnChar (c : Char) : List Char → List (List Char)
  | [] => [[]]
  | x :: xs =>
    let r := splitOnChar c xs
    if x == c then [] :: r
    else
      match r with
      | [] => [[x]]
      | h :: t => (x :: h) :: t

/-- Parses a non-empty all-digit character list into a number, the behaviour
of Python's `int` on the strings appearing here. -/
def charsToNat? (cs : List Char) : Option Nat :=
  if cs.isEmpty then none
  else if cs.all Char.isDigit then
    some (cs.foldl (fun acc c => acc * 10 + (c.toNat - 48)) 0)
  else none

/-- A `distutils.version.StrictVersion` restricted to the plain dotted
numeric versions used for DAP versions (the `a`/`b` prerelease suffixes of
StrictVersion are not modelled; no DAP version carries one). -/
structure StrictVersion where
  major : Nat
  minor : Nat
  patch : Nat
deriving DecidableEq, Repr

/-- Parses `N.N` or `N.N.N` into a `StrictVersion`; a two-component version
gets patch 0, exactly as `distutils.version.StrictVersion`.  `none` models the
`ValueError` raised on any other input. -/
def StrictVersion.parse (s : String) : Option StrictVersion :=
  match (splitOnChar '.' s.data).mapM charsToNat? with
  | some [a, b] => some ⟨a, b, 0⟩
  | some [a, b, c] => some ⟨a, b, c⟩
  | _ => none

/-- Ordering of `StrictVersion`: lexicographic on (major, minor, patch). -/
def StrictVersion.le (v w : StrictVersion) : Bool :=
  Nat.blt v.major w.major ||
    (v.major == w.major &&
      (Nat.blt v.minor w.minor ||
        (v.minor == w.minor && Nat.ble v.patch w.patch)))

/-- Strict ordering of `StrictVersion`. -/
def StrictVersion.lt (v w : StrictVersion) : Bool :=
  v.le w && !(w.le v)

/-- Drops the given character from both ends of a string, the behaviour of
Python's `str.strip('v')`. -/
def stripChar (c : Char) (s : String) : String :=
  ⟨((s.data.dropWhile (· == c)).reverse.dropWhile (· == c)).reverse⟩

/-- Replaces every underscore by a dot, the `replace('_', '.')` call in
`_is_MPL4`. -/
def underscoresToDots (s : String) : String :=
  ⟨s.data.map fun c => if c == '_' then '.' else c⟩

/-- The version-string normalisation in `_is_MPL4` (maps.py lines 52-53):
when the string contains a `v`, it is stripped from the ends and underscores
become dots. -/
def normalizeDapver (dapver : String) : String :=
  if dapver.data.contains 'v' then underscoresToDots (stripChar 'v' dapver)
  else dapver

/-- The MPL-4 DAP version `1.1.1` that `_is_MPL4` compares against. -/
def MPL4_version : StrictVersion := ⟨1, 1, 1⟩

/-- Embedding of `_is_MPL4` (maps.py lines 47-58): normalises the version
string and tests whether it is at most `1.1.1`.  `none` models the exception
raised when the string is not a valid strict version. -/
def is_MPL4 (dapver : String) : Option Bool :=
  (StrictVersion.parse (normalizeDapver dapver)).map fun v => v.le MPL4_version

/-- A DAP bin type: name, numeric identifier (`n`, used for the MPL-4 `niter`
path component) and the flag telling whether the data were spatially binned. -/
structure BinType where
  name : String
  n : Nat
  binned : Bool
deriving DecidableEq, Repr

/-- A DAP template: name and numeric identifier. -/
structure Template where
  name : String
  n : Nat
deriving DecidableEq, Repr

/-- The state of a `Maps` instance relevant to the embedded methods: the
identifiers, versions, current bin type and template, load mode, and the bin
types of its datamodel. -/
structure MapsState where
  plateifu : String
  release : String
  drpver : String
  dapver : String
  bintype : BinType
  template : Template
  mode : String
  bintypes : List BinType
deriving DecidableEq, Repr

/-- Modelled from the spec: `VersionEntry.get_unbinned()` of the datamodel
registry (absent from the inspected sources) returns the BinType of the
version whose `binned` flag is false (spec section 4.3). -/
def get_unbinned_bintype (bts : List BinType) : Option BinType :=
  bts.find? fun bt => bt.binned == false

/-- A Python value as far as the guard of `Maps.get_unbinned` can observe it:
a boolean, or a bound-method object. -/
inductive PyVal
  | pybool (b : Bool)
  | pymethod
deriving DecidableEq, Repr

/-- Python's `is` on the values above: `True is True` and `False is False`
hold because booleans are singletons; a bound-method object is never
identical to a boolean, and every attribute access creates a fresh bound
method, so two method values are not identical either. -/
def pyIs : PyVal → PyVal → Bool
  | .pybool a, .pybool b => a == b
  | _, _ => false

/-- The attribute access `self.is_binned` in `Maps.get_unbinned` (maps.py
line 598): `is_binned` is a plain method (no property decorator), so the
access yields the bound-method object, not the Bool its call would return. -/
def maps_is_binned_attr (_m : MapsState) : PyVal :=
  .pymethod

/-- The result of actually calling `Maps.is_binned()` (maps.py lines
590-593): `self.bintype.binned`. -/
def maps_is_binned_call (m : MapsState) : Bool :=
  m.bintype.binned

/-- Result of `Maps.get_unbinned`: the same object, or a newly constructed
`Maps` with the given constructor arguments. -/
inductive GetUnbinnedResult
  | sameObject
  | newMaps (plateifu release : String) (bintype : Option BinType)
      (template : Template) (mode : String)
deriving DecidableEq, Repr

/-- Embedding of `Maps.get_unbinned` (maps.py lines 595-603): the guard is
`self.is_binned is False`, comparing the bound-method object against the
`False` singleton; otherwise a new `Maps` is built with the datamodel's
unbinned bin type. -/
def maps_get_unbinned (m : MapsState) : GetUnbinnedResult :=
  if pyIs (maps_is_binned_attr m) (.pybool false) then .sameObject
  else .newMaps m.plateifu m.release (get_unbinned_bintype m.bintypes) m.template m.mode

/-- The keyword arguments `Maps.getSpaxel` fills in before delegating to the
general spaxel lookup (maps.py lines 508-510): whether a cube is attached
(`self.cube if spectrum else False`), the `maps` argument (always
`self.get_unbinned()`), and the `modelcube` flag. -/
structure GetSpaxelKwargs where
  cube : Bool
  maps : GetUnbinnedResult
  modelcube : Bool
deriving DecidableEq, Repr

/-- Embedding of the kwarg computation of `Maps.getSpaxel` (maps.py lines
464-512): `modelcube` is passed through for non-legacy versions and forced to
`False` when `_is_MPL4(self._dapver)` holds; `none` models the exception
`_is_MPL4` raises on an unparsable version. -/
def maps_getSpaxelKwargs (m : MapsState) (spectrum modelcube : Bool) :
    Option GetSpaxelKwargs :=
  (is_MPL4 m.dapver).map fun legacy =>
    ⟨spectrum, maps_get_unbinned m, if legacy then false else modelcube⟩

/-- A key passed to `Maps.__getitem__`: a tuple (of coordinates), a string, or
a value of any other type. -/
inductive GetItemKey
  | tup (elems : List Int)
  | str (s : String)
  | other
deriving DecidableEq, Repr

/-- Result of `Maps.__getitem__`: a spaxel lookup, a map lookup (with the
channel and exact arguments `getMap` receives), or one of the two failure
modes. -/
inductive GetItemResult
  | spaxel (x y : Int) (xyorig : String)
  | mapOf (propertyName : String) (channel : Option String) (exact : Bool)
  | assertionError (msg : String)
  | marvinError (msg : String)
deriving DecidableEq, Repr

/-- Embedding of `Maps.__getitem__` (maps.py lines 142-152): a 2-tuple is
unpacked as `y, x` and dispatched to `getSpaxel(x=x, y=y, xyorig='lower')`, a
tuple of any other length fails the length assertion, a string is dispatched
to `getMap` (whose signature defaults are `channel=None, exact=False`), and
any other type raises `MarvinError`. -/
def maps_getitem : GetItemKey → GetItemResult
  | .tup [y, x] => .spaxel x y "lower"
  | .tup _ => .assertionError "slice must have two elements."
  | .str s => .mapOf s none false
  | .other => .marvinError "invalid type for getitem."

/-- Modelled from the spec: the static release table behind
`marvin.config.lookUpRelease` (absent from the inspected sources), mapping a
DRP version to its release; the pairs are those listed by `getMPL` in
`jinja_filters.py` plus MPL-5.  The historical string `v1_5_0` has no entry:
it is an alias, not a release key. -/
def lookUpRelease (drpver : String) : Option String :=
  if drpver == "v1_0_0" then some "MPL-1"
  else if drpver == "v1_1_2" then some "MPL-2"
  else if drpver == "v1_3_3" then some "MPL-3"
  else if drpver == "v1_5_1" then some "MPL-4"
  else if drpver == "v1_5_2" then some "DR13"
  else if drpver == "v2_0_1" then some "MPL-5"
  else none

/-- Embedding of the release-resolution slice of `Maps._load_maps_from_file`
(maps.py lines 266-271): the header DRP version is normalised
(`'v1_5_1' if file_drpver == 'v1_5_0' else file_drpver`) before the release
lookup. -/
def fileLoadResolveRelease (header_drpver : String) : Option String :=
  let file_drpver := if header_drpver == "v1_5_0" then "v1_5_1" else header_drpver
  lookUpRelease file_drpver

/-- Embedding of `filterVersion` (jinja_filters.py lines 166-171). -/
def filterVersion (value : String) : String :=
  if value == "v1_5_0" then "v1_5_1" else value

/-- Outcome of `Maps._check_versions`: success, one of its assertion
failures, or the `KeyError` raised when the header has no `VERSDAP` card. -/
inductive CheckVersionsResult
  | ok
  | assertDrpMismatch (selfDrp headerDrp : String)
  | assertVersdapPresent
  | keyErrorVersdap
  | assertDapMismatch
deriving DecidableEq, Repr

/-- Embedding of `Maps._check_versions` (maps.py lines 177-200).  The header
is its `VERSDRP3` string and its optional `VERSDAP` string.  The `v1_5_0`
alias is applied only when the instance release is `MPL-4`, and applying it
also sets the `isMPL4` flag: that branch then asserts `VERSDAP` is absent,
while the other branch reads `VERSDAP` (raising `KeyError` when absent) and
compares it with the instance DAP version. -/
def check_versions (release : String) (header_versdrp3 : String)
    (header_versdap : Option String) (self_drpver self_dapver : String) :
    CheckVersionsResult :=
  let pair :=
    if release == "MPL-4" && header_versdrp3 == "v1_5_0" then ("v1_5_1", true)
    else (header_versdrp3, false)
  let header_drpver := pair.1
  let isMPL4flag := pair.2
  if header_drpver != self_drpver then .assertDrpMismatch self_drpver header_drpver
  else if isMPL4flag then
    if header_versdap.isSome then .assertVersdapPresent else .ok
  else
    match header_versdap with
    | none => .keyErrorVersdap
    | some hd => if hd == self_dapver then .ok else .assertDapMismatch

/-- Decimal digits of a natural number (fuel-based so that it evaluates
inside the kernel); models Python's `str` on the small identifiers used in
path construction. -/
def natDigitsAux : Nat → Nat → List Char
  | _, 0 => []
  | n, fuel + 1 =>
    if n < 10 then [Char.ofNat (48 + n)]
    else natDigitsAux (n / 10) fuel ++ [Char.ofNat (48 + n % 10)]

/-- Decimal representation of a natural number. -/
def natDecimal (n : Nat) : List Char :=
  natDigitsAux n 64

/-- The `niter` value of the MPL-4 path parameters:
`int('{template.n}{bintype.n}')`, the decimal concatenation of the two
identifiers re-read as a number (maps.py line 232). -/
def niterOf (t b : Nat) : Option Nat :=
  charsToNat? (natDecimal t ++ natDecimal b)

/-- The `plate, ifu = self.plateifu.split('-')` unpacking; `none` models the
unpacking error when the string does not split in exactly two parts. -/
def splitPlateifu (s : String) : Option (String × String) :=
  match splitOnChar '-' s.data with
  | [p, i] => some (⟨p⟩, ⟨i⟩)
  | _ => none

/-- The parameter dictionary built by `Maps._getPathParams`: the legacy
`mangamap` shape or the `mangadap5` shape. -/
inductive PathParams
  | mangamap (drpver dapver plate ifu bintypeName : String) (niter : Option Nat)
  | mangadap5 (drpver dapver plate ifu modeStr daptype : String)
deriving DecidableEq, Repr

/-- Embedding of `Maps._getPathParams` (maps.py lines 221-242): the plateifu
is split, and the single `_is_MPL4` test selects between the legacy
`mangamap` parameters (with the concatenated `niter`) and the `mangadap5`
parameters (with `daptype = bintype-template` and mode `MAPS`). -/
def maps_getPathParams (m : MapsState) : Option PathParams :=
  match splitPlateifu m.plateifu, is_MPL4 m.dapver with
  | some (plate, ifu), some true =>
    some (.mangamap m.drpver m.dapver plate ifu m.bintype.name
      (niterOf m.template.n m.bintype.n))
  | some (plate, ifu), some false =>
    some (.mangadap5 m.drpver m.dapver plate ifu "MAPS"
      (m.bintype.name ++ "-" ++ m.template.name))
  | _, _ => none

/-- Embedding of the header-key selection of `Maps._load_maps_from_file`
(maps.py lines 283-290): the bin type is read from `BINTYPE` and the template
from `TPLKEY` for legacy versions, from `BINKEY` and `SCKEY` otherwise; both
choices consult `_is_MPL4`. -/
def loadHeaderKeys (dapver : String) : Option (String × String) :=
  (is_MPL4 dapver).map fun legacy =>
    (if legacy then "BINTYPE" else "BINKEY", if legacy then "TPLKEY" else "SCKEY")

/-- Sample unbinned bin type of the v2.0.2 catalog. -/
def bintypeSPX : BinType := ⟨"SPX", 1, false⟩

/-- Sample binned bin type of the v2.0.2 catalog. -/
def bintypeVOR10 : BinType := ⟨"VOR10", 2, true⟩

/-- Sample template of the v2.0.2 catalog. -/
def templateGAU : Template := ⟨"GAU-MILESHC", 1⟩

/-- Sample `Maps` state: an MPL-5, unbinned (SPX) instance. -/
def sampleMaps : MapsState :=
  ⟨"8485-1901", "MPL-5", "v2_0_1", "2.0.2", bintypeSPX, templateGAU, "local",
   [bintypeSPX, bintypeVOR10]⟩

/-- Sample `Maps` state: an MPL-4 instance. -/
def sampleMapsMPL4 : MapsState :=
  ⟨"8485-1901", "MPL-4", "v1_5_1", "1.1.1", ⟨"NONE", 3, false⟩,
   ⟨"MIUSCAT-THIN", 2⟩, "local", [⟨"NONE", 3, false⟩, ⟨"STON", 1, true⟩]⟩

/-- Helper: a list whose keys (under `f`) are distinct, filtered by sharing a
member's key, is exactly that member. -/
theorem filter_by_key_singleton {α : Type} (f : α → String) :
    ∀ (l : List α) (a : α), (l.map f).Nodup → a ∈ l →
      l.filter (fun x => f x == f a) = [a] := by
  intro l
  induction l with
  | nil => intro a _ ha; cases ha
  | cons b t ih =>
    intro a hnd ha
    have hcons : f b ∉ t.map f ∧ (t.map f).Nodup := by
      rw [List.map_cons, List.nodup_cons] at hnd
      exact hnd
    rcases List.mem_cons.mp ha with rfl | hat
    · have hrest : t.filter (fun x => f x == f a) = [] := by
        refine List.filter_eq_nil_iff.mpr ?_
        intro x hx hfx
        exact hcons.1 (List.mem_map.mpr ⟨x, hx, by simpa using hfx⟩)
      simp [List.filter_cons, hrest]
    · have hfb : (f b == f a) = false := by
        refine beq_eq_false_iff_ne.mpr ?_
        intro hEq
        exact hcons.1 (hEq ▸ List.mem_map_of_mem f hat)
      simp only [List.filter_cons, hfb, Bool.false_eq_true, if_false]
      exact ih a hcons.2 hat

/-- Helper: a property together with one of its channels is one of the
addressable entries of its PropertyList. -/
theorem mem_entries_of_channel (pl : PropertyList) (p : Property) (c : Channel)
    (hp : p ∈ pl.properties) (hc : c ∈ p.channels) :
    (p, some c) ∈ pl.entries := by
  unfold PropertyList.entries
  refine List.mem_flatMap.mpr ⟨p, hp, ?_⟩
  have hne : p.channels.isEmpty = false := by
    cases h : p.channels with
    | nil => rw [h] at hc; cases hc
    | cons a t => rfl
  simp only [hne, Bool.false_eq_true, if_false]
  exact List.mem_map.mpr ⟨c, hc, rfl⟩

/-- Helper: under distinct addresses, the exact-match list of a full name is
exactly the property and channel it names. -/
theorem exactMatches_singleton (pl : PropertyList) (p : Property) (c : Channel)
    (hp : p ∈ pl.properties) (hc : c ∈ p.channels)
    (hu : (pl.entries.map pairFull).Nodup) :
    pl.exactMatches (p.name ++ "_" ++ c.name) = [(p, some c)] := by
  have hmem := mem_entries_of_channel pl p c hp hc
  have h := filter_by_key_singleton pairFull pl.entries (p, some c) hu hmem
  exact h

/-- C3: the non-throwing accessor `get` returns an absence value on every
failure of resolution (ambiguity included) and never a failure of its own;
in particular `get('nonexistent_property')` is `none`, as are the other
lookups the repository's test performs, while a resolvable full name yields
its pair. -/
theorem C3_get_nonthrowing :
    (∀ (pl : PropertyList) (name : String) (e : ResolveError),
        pl.resolve name none false = .error e → pl.get name = none) ∧
    mpl5dm.get "nonexistent_property" = none ∧
    mpl5dm.get "badname_badchannel" = none ∧
    mpl5dm.get "emline_gflux" = none ∧
    mpl5dm.get "emline_gflux_badchannel" = none ∧
    mpl5dm.get "emline_gflux_oii_3727" = some (emline_gflux_prop, some oii_3727) := by
  refine ⟨?_, by decide, by decide, by decide, by decide, by decide⟩
  intro pl name e h
  simp [PropertyList.get, h, Except.toOption]

/-- Witness for C3 at a concrete failing input. -/
theorem C3_witness :
    mpl5dm.resolve "nonexistent_property" none false = .error .propertyNotFound ∧
    mpl5dm.get "nonexistent_property" = none :=
  ⟨by decide, C3_get_nonthrowing.1 mpl5dm "nonexistent_property" .propertyNotFound (by decide)⟩

/-- C7: a separately supplied channel (either a Channel object, through its
name, or a plain string) is concatenated as `name + "_" + channel`, and the
result is resolved exactly as a caller-supplied full name. -/
theorem C7_channel_concatenation (pl : PropertyList) (name : String) (c : Channel)
    (s : String) (exact : Bool) :
    match_properties pl name (some (.chan c)) exact =
      match_properties pl (name ++ "_" ++ c.name) none exact ∧
    match_properties pl name (some (.str s)) exact =
      match_properties pl (name ++ "_" ++ s) none exact :=
  ⟨rfl, rfl⟩

/-- C8: `get_unbinned` always constructs a new Maps with the version's
unbinned bin type and never returns `self`, even when the current Maps is
already unbinned, because its guard compares the bound-method object
`self.is_binned` with `False`, which never holds. -/
theorem C8_get_unbinned_never_self (m : MapsState)
    (h : maps_is_binned_call m = false) :
    pyIs (maps_is_binned_attr m) (.pybool false) = false ∧
    maps_get_unbinned m ≠ .sameObject ∧
    maps_get_unbinned m =
      .newMaps m.plateifu m.release (get_unbinned_bintype m.bintypes) m.template m.mode := by
  refine ⟨rfl, fun hh => ?_, rfl⟩
  exact GetUnbinnedResult.noConfusion hh

/-- Witness for C8 on a concrete, already-unbinned Maps. -/
theorem C8_witness :
    maps_is_binned_call sampleMaps = false ∧
    maps_get_unbinned sampleMaps ≠ .sameObject ∧
    maps_get_unbinned sampleMaps =
      .newMaps "8485-1901" "MPL-5" (some bintypeSPX) templateGAU "local" :=
  ⟨by decide, (C8_get_unbinned_never_self sampleMaps (by decide)).2.1,
   (C8_get_unbinned_never_self sampleMaps (by decide)).2.2⟩

/-- C9: for a legacy (MPL-4) DAP version, `getSpaxel` forces the `modelcube`
keyword to `False` regardless of the caller's argument; for a non-legacy
version the caller's value passes through unchanged. -/
theorem C9_modelcube_forcing (m : MapsState) (spectrum mc b : Bool)
    (h : is_MPL4 m.dapver = some b) :
    maps_getSpaxelKwargs m spectrum mc =
      some ⟨spectrum, maps_get_unbinned m, if b then false else mc⟩ ∧
    (b = true → maps_getSpaxelKwargs m spectrum mc =
      some ⟨spectrum, maps_get_unbinned m, false⟩) ∧
    (b = false → maps_getSpaxelKwargs m spectrum mc =
      some ⟨spectrum, maps_get_unbinned m, mc⟩) := by
  unfold maps_getSpaxelKwargs
  rw [h]
  refine ⟨rfl, ?_, ?_⟩ <;> rintro rfl <;> rfl

/-- Witness for C9 on a concrete MPL-4 Maps asking for a modelcube. -/
theorem C9_witness :
    is_MPL4 sampleMapsMPL4.dapver = some true ∧
    maps_getSpaxelKwargs sampleMapsMPL4 true true =
      some ⟨true, maps_get_unbinned sampleMapsMPL4, false⟩ :=
  ⟨by decide, (C9_modelcube_forcing sampleMapsMPL4 true true true (by decide)).2.1 rfl⟩

/-- C10: indexing a Maps dispatches on the key's type: a 2-tuple `(y, x)`
becomes `getSpaxel(x=x, y=y, xyorig='lower')`, a string becomes `getMap`
with its defaults `channel=None, exact=False`, any other type raises
`MarvinError`, and a tuple of any other length fails the length assertion. -/
theorem C10_getitem_dispatch :
    (∀ y x : Int, maps_getitem (.tup [y, x]) = .spaxel x y "lower") ∧
    (∀ s : String, maps_getitem (.str s) = .mapOf s none false) ∧
    maps_getitem .other = .marvinError "invalid type for getitem." ∧
    (∀ es : List Int, es.length ≠ 2 →
        maps_getitem (.tup es) = .assertionError "slice must have two elements.") := by
  refine ⟨fun y x => rfl, fun s => rfl, rfl, ?_⟩
  intro es h
  cases es with
  | nil => rfl
  | cons a t =>
    cases t with
    | nil => rfl
    | cons b u =>
      cases u with
      | nil => exact absurd rfl h
      | cons c v => rfl

/-- Witness for C10 at a concrete one-element tuple. -/
theorem C10_witness :
    ([(3 : Int)].length ≠ 2) ∧
    maps_getitem (.tup [(3 : Int)]) = .assertionError "slice must have two elements." :=
  ⟨by decide, C10_getitem_dispatch.2.2.2 [(3 : Int)] (by decide)⟩

/-- C4: round-trip property: for every property P with channel C in a
PropertyList whose addressable entries carry distinct full names (the
addressability invariant of the catalog), resolving `P.name + "_" + C.name`
with `exact=True` returns exactly the pair (P, C). -/
theorem C4_roundtrip (pl : PropertyList) (p : Property) (c : Channel)
    (hp : p ∈ pl.properties) (hc : c ∈ p.channels)
    (hu : (pl.entries.map pairFull).Nodup) :
    pl.resolve (p.name ++ "_" ++ c.name) none true = .ok (p, some c) := by
  have hex := exactMatches_singleton pl p c hp hc hu
  show (match pl.exactMatches (p.name ++ "_" ++ c.name) with
    | m :: _ => resolveCheckExact true (p.name ++ "_" ++ c.name) m
    | [] =>
      match pl.fuzzyMatches (p.name ++ "_" ++ c.name) with
      | [] => .error .propertyNotFound
      | [m] => resolveCheckExact true (p.name ++ "_" ++ c.name) m
      | ms => .error (.ambiguousMatch (ms.map pairFull))) = .ok (p, some c)
  rw [hex]
  simp [resolveCheckExact, ieq, pairFull, Property.fullName]

/-- Witness for C4 on the concrete v2.0.2 catalog. -/
theorem C4_witness :
    emline_gflux_prop ∈ mpl5dm.properties ∧
    oii_3727 ∈ emline_gflux_prop.channels ∧
    (mpl5dm.entries.map pairFull).Nodup ∧
    mpl5dm.resolve (emline_gflux_prop.name ++ "_" ++ oii_3727.name) none true =
      .ok (emline_gflux_prop, some oii_3727) :=
  ⟨by decide, by decide, by decide,
   C4_roundtrip mpl5dm emline_gflux_prop oii_3727 (by decide) (by decide) (by decide)⟩

/-- C5: `_is_MPL4` is true exactly on DAP versions at most 1.1.1 — true on
the earliest supported generation's version strings (`1.1.1`, `v1_1_1`) and
false on every strictly later version — and the version-conditional
branching of path construction, of the header-key selection and of the
`modelcube` feature each consult this single predicate. -/
theorem C5_is_legacy :
    is_MPL4 "1.1.1" = some true ∧
    is_MPL4 "v1_1_1" = some true ∧
    is_MPL4 "2.0.2" = some false ∧
    (∀ (s : String) (v : StrictVersion),
        StrictVersion.parse (normalizeDapver s) = some v →
        (is_MPL4 s = some true ↔ v.le MPL4_version = true)) ∧
    (∀ (s : String) (v : StrictVersion),
        StrictVersion.parse (normalizeDapver s) = some v →
        MPL4_version.lt v = true → is_MPL4 s = some false) ∧
    (∀ (m : MapsState) (plate ifu : String) (b : Bool),
        splitPlateifu m.plateifu = some (plate, ifu) →
        is_MPL4 m.dapver = some b →
        maps_getPathParams m = some
          (if b then
            .mangamap m.drpver m.dapver plate ifu m.bintype.name
              (niterOf m.template.n m.bintype.n)
           else
            .mangadap5 m.drpver m.dapver plate ifu "MAPS"
              (m.bintype.name ++ "-" ++ m.template.name))) ∧
    (∀ (dapver : String) (b : Bool), is_MPL4 dapver = some b →
        loadHeaderKeys dapver = some
          (if b then ("BINTYPE", "TPLKEY") else ("BINKEY", "SCKEY"))) ∧
    (∀ (m : MapsState) (spectrum mc b : Bool), is_MPL4 m.dapver = some b →
        maps_getSpaxelKwargs m spectrum mc =
          some ⟨spectrum, maps_get_unbinned m, if b then false else mc⟩) := by
  refine ⟨by decide, by decide, by decide, ?_, ?_, ?_, ?_, ?_⟩
  · intro s v hparse
    simp [is_MPL4, hparse]
  · intro s v hparse hlt
    have hle : v.le MPL4_version = false := by
      have := (Bool.and_eq_true _ _).mp hlt
      simpa using this.2
    simp [is_MPL4, hparse, hle]
  · intro m plate ifu b hsplit hb
    unfold maps_getPathParams
    rw [hsplit, hb]
    cases b <;> rfl
  · intro dapver b hb
    unfold loadHeaderKeys
    rw [hb]
    cases b <;> rfl
  · intro m spectrum mc b hb
    unfold maps_getSpaxelKwargs
    rw [hb]
    rfl

/-- Witness for C5: a later version is rejected, and the path branching at a
concrete MPL-4 state follows the predicate. -/
theorem C5_witness :
    StrictVersion.parse (normalizeDapver "2.1.3") = some ⟨2, 1, 3⟩ ∧
    MPL4_version.lt ⟨2, 1, 3⟩ = true ∧
    is_MPL4 "2.1.3" = some false ∧
    splitPlateifu sampleMapsMPL4.plateifu = some ("8485", "1901") ∧
    is_MPL4 sampleMapsMPL4.dapver = some true ∧
    maps_getPathParams sampleMapsMPL4 = some
      (.mangamap "v1_5_1" "1.1.1" "8485" "1901" "NONE" (niterOf 2 3)) :=
  ⟨by decide, by decide,
   C5_is_legacy.2.2.2.2.1 "2.1.3" ⟨2, 1, 3⟩ (by decide) (by decide),
   by decide, by decide,
   C5_is_legacy.2.2.2.2.2.1 sampleMapsMPL4 "8485" "1901" true (by decide) (by decide)⟩

/-- C6 counterexample: the claim's matching rule (the one resolution uses)
rejects the bare name of a channelled property, yet the repository's own test
requires `'EMLINE_GFLUX' in datamodel` to hold on the v2.0.2 catalog, where
`emline_gflux` has channels: membership does not use the resolution rule. -/
theorem C6_counterexample :
    mpl5dm.memSpecRule "EMLINE_GFLUX" = false ∧
    mpl5dm.memActual "EMLINE_GFLUX" = true ∧
    mpl5dm.memSpecRule "EMLINE_GFLUX" ≠ mpl5dm.memActual "EMLINE_GFLUX" :=
  ⟨by decide, by decide, by decide⟩

/-- C6 (amended): membership matches the bare property name alone,
case-insensitively, regardless of whether the property has channels; it is
true for `EMLINE_GFLUX`/`emline_gflux` on the v2.0.2 catalog and false for
every name carried by no property of the catalog. -/
theorem C6_membership :
    mpl5dm.memActual "EMLINE_GFLUX" = true ∧
    mpl5dm.memActual "emline_gflux" = true ∧
    mpl5dm.memActual "emline_bad" = false ∧
    (∀ name : String, mpl5dm.memActual name = true →
        ∃ p ∈ mpl5dm.properties, ieq p.name name = true) := by
  refine ⟨by decide, by decide, by decide, ?_⟩
  intro name h
  simpa [PropertyList.memActual, List.any_eq_true] using h

/-- Witness for C6 at a concrete member name. -/
theorem C6_witness :
    mpl5dm.memActual "STELLAR_VEL" = true ∧
    (∃ p ∈ mpl5dm.properties, ieq p.name "STELLAR_VEL" = true) :=
  ⟨by decide, C6_membership.2.2.2 "STELLAR_VEL" (by decide)⟩

/-- C1 counterexample: in the header version check the two historical DRP
strings are not interchangeable: on an MPL-4 instance whose header lacks
`VERSDAP`, the header value `v1_5_0` passes while `v1_5_1` raises `KeyError`,
because the alias also drives the `isMPL4` flag. -/
theorem C1_counterexample :
    check_versions "MPL-4" "v1_5_0" none "v1_5_1" "1.1.1" = .ok ∧
    check_versions "MPL-4" "v1_5_1" none "v1_5_1" "1.1.1" = .keyErrorVersdap ∧
    check_versions "MPL-4" "v1_5_0" none "v1_5_1" "1.1.1" ≠
      check_versions "MPL-4" "v1_5_1" none "v1_5_1" "1.1.1" :=
  ⟨by decide, by decide, by decide⟩

/-- C1 (amended): the `v1_5_0 → v1_5_1` alias is normalised unconditionally
before release lookup in the file-load path and in the display filter, so
both strings resolve to the same release there; in the header version check
the alias applies only when the instance release is `MPL-4`, where it accepts
`v1_5_0` and additionally selects the no-`VERSDAP` branch, and for any other
release the raw `v1_5_0` is compared unnormalised. -/
theorem C1_alias_normalization :
    fileLoadResolveRelease "v1_5_0" = fileLoadResolveRelease "v1_5_1" ∧
    fileLoadResolveRelease "v1_5_0" = some "MPL-4" ∧
    filterVersion "v1_5_0" = filterVersion "v1_5_1" ∧
    (∀ dap : String, check_versions "MPL-4" "v1_5_0" none "v1_5_1" dap = .ok) ∧
    (∀ dap : String,
        check_versions "MPL-4" "v1_5_1" none "v1_5_1" dap = .keyErrorVersdap) ∧
    (∀ (rel : String) (hv : Option String) (sdrp sdap : String),
        rel ≠ "MPL-4" → sdrp ≠ "v1_5_0" →
        check_versions rel "v1_5_0" hv sdrp sdap = .assertDrpMismatch sdrp "v1_5_0") := by
  refine ⟨by decide, by decide, by decide, fun dap => rfl, fun dap => rfl, ?_⟩
  intro rel hv sdrp sdap h1 h2
  have hb1 : (rel == "MPL-4") = false := beq_eq_false_iff_ne.mpr h1
  have hb2 : ("v1_5_0" != sdrp) = true := by
    simpa [bne] using fun hEq => h2 hEq.symm
  simp [check_versions, hb1, hb2]

/-- Witness for C1 at the unnormalised non-MPL-4 caller. -/
theorem C1_witness :
    check_versions "MPL-4" "v1_5_0" none "v1_5_1" "1.1.1" = .ok ∧
    ("MPL-5" ≠ ("MPL-4" : String)) ∧ ("v2_0_1" ≠ ("v1_5_0" : String)) ∧
    check_versions "MPL-5" "v1_5_0" none "v2_0_1" "2.0.2" =
      .assertDrpMismatch "v2_0_1" "v1_5_0" :=
  ⟨C1_alias_normalization.2.2.2.1 "1.1.1", by decide, by decide,
   C1_alias_normalization.2.2.2.2.2 "MPL-5" none "v2_0_1" "2.0.2" (by decide) (by decide)⟩

/-- C2 counterexample: with `exact=True`, on input `EMLINE_GFLUX_HA_6564`, a
fuzzy match exists and the reconstructed full name reproduces the input
case-insensitively, yet `_match_properties` fails — with the assertion error,
not with the lookup's not-found failure — because the re-verification
`best.full() == property_name` is case-sensitive. -/
theorem C2_counterexample :
    match_properties mpl5dm "EMLINE_GFLUX_HA_6564" none true =
      .error (.assertExactMismatch "emline_gflux_ha_6564" "EMLINE_GFLUX_HA_6564") ∧
    mpl5dm.resolve "EMLINE_GFLUX_HA_6564" none false =
      .ok (emline_gflux_prop, some ha_6564) ∧
    ieq (pairFull (emline_gflux_prop, some ha_6564)) "EMLINE_GFLUX_HA_6564" = true :=
  ⟨by decide, by decide, by decide⟩

/-- C2 (amended): after a match is found with `exact=True`,
`_match_properties` re-verifies that the full name reconstructed from the
match equals the original (channel-concatenated) input by exact,
case-sensitive string equality; on mismatch it fails with the assertion
error even though a fuzzy match existed, and on equality it returns the
match. -/
theorem C2_exact_recheck (pl : PropertyList) (name : String)
    (ch : Option ChannelArg) (best : Property × Option Channel)
    (hbest : pl.resolve (matchInputName name ch) none false = .ok best) :
    (pairFull best = matchInputName name ch →
        match_properties pl name ch true = .ok best) ∧
    (pairFull best ≠ matchInputName name ch →
        match_properties pl name ch true =
          .error (.assertExactMismatch (pairFull best) (matchInputName name ch))) := by
  constructor
  · intro h
    simp [match_properties, hbest, h]
  · intro h
    simp [match_properties, hbest, h]

/-- Witness for C2 at a concrete exact lookup that passes the re-check. -/
theorem C2_witness :
    mpl5dm.resolve "emline_gvel_oii_3727" none false =
      .ok (emline_gvel_prop, some oii_3727) ∧
    pairFull (emline_gvel_prop, some oii_3727) =
      matchInputName "emline_gvel_oii_3727" none ∧
    match_properties mpl5dm "emline_gvel_oii_3727" none true =
      .ok (emline_gvel_prop, some oii_3727) :=
  ⟨by decide, by decide,
   (C2_exact_recheck mpl5dm "emline_gvel_oii_3727" none
      (emline_gvel_prop, some oii_3727) (by decide)).1 (by decide)⟩

end Marvin
